import Mathlib

/-!
Shallow embedding of the to-do-tracker service (`src/main.py`, `src/models.py`).

The provider's raw records are property maps: association lists from
human-readable field names to tagged variant values (`NProp`).  The Schema
Normalizer `notion_to_task` converts a raw page into the canonical `Task`;
dictionary accesses that can raise `KeyError` in the Python source are modelled
in the `Except String` monad.  The Property Builders (`buildCreateProps` from
`add_task`, `buildUpdateProps` from `update_task`) convert a canonical `Task`
into the provider's write format.  HTTP handlers are modelled as functions from
an authentication context and a provider world (the list of pages the provider
would return from a query) to an `Except`-style response paired with the
resulting world.
-/

namespace TodoTracker

/-- Canonical task schema (`models.py`, class `Task`). -/
structure Task where
  task_id : Int
  task_name : String
  status : Option String := none
  assignee : Option String := none
  due_date : Option String := none
  priority : Option String := none
  task_type : Option String := none
  description : Option String := none
  attach_file : Option String := none
  past_due : Option Bool := none
  updated_at : Option String := none
  effort_level : Option String := none
  summary : Option String := none
deriving Repr, DecidableEq

/-- A provider file object: tagged either "file" (hosted) or "external",
each wrapping a url (`main.py` lines 184-189). -/
inductive NFile where
  | file (url : String)
  | external (url : String)
deriving Repr, DecidableEq

/-- A provider person object: "id" and "name" keys, each possibly absent. -/
structure NPerson where
  id : Option String := none
  name : Option String := none
deriving Repr, DecidableEq

/-- A provider property value: a tagged variant by sub-type.  The tag is the
value of the "type" key, and the payload is the value stored under the key of
the same name.  `none` payloads model JSON `null` (e.g. a cleared select). -/
inductive NProp where
  | formula (boolean : Option Bool)
  | checkbox (b : Bool)
  | number (n : Option Int)
  | unique_id (n : Int)
  | select (name : Option String)
  | status (name : Option String)
  | multi_select (options : List String)
  | files (fs : List NFile)
  | title (texts : List String)
  | people (ps : List NPerson)
  | date (start : Option String)
  | rich_text (texts : List String)
deriving Repr, DecidableEq

/-- `prop["type"]`: the tag of the variant. -/
def NProp.typeTag : NProp → String
  | .formula _ => "formula"
  | .checkbox _ => "checkbox"
  | .number _ => "number"
  | .unique_id _ => "unique_id"
  | .select _ => "select"
  | .status _ => "status"
  | .multi_select _ => "multi_select"
  | .files _ => "files"
  | .title _ => "title"
  | .people _ => "people"
  | .date _ => "date"
  | .rich_text _ => "rich_text"

/-- `prop.get("number")`: `none` when the key is absent or the value null. -/
def NProp.getNumber : NProp → Option Int
  | .number n => n
  | _ => none

/-- `prop.get("unique_id")["number"]`: the wrapper dict is truthy when present. -/
def NProp.getUniqueId : NProp → Option Int
  | .unique_id n => some n
  | _ => none

/-- `prop.get("select")["name"]`: `none` when the key is absent or the select null. -/
def NProp.getSelect : NProp → Option String
  | .select s => s
  | _ => none

/-- `prop.get("status")["name"]`: `none` when the key is absent or the status null. -/
def NProp.getStatus : NProp → Option String
  | .status s => s
  | _ => none

/-- `prop.get("multi_select")`: the option-name list when the key is present. -/
def NProp.getMultiSelect : NProp → Option (List String)
  | .multi_select l => some l
  | _ => none

/-- `"checkbox" in prop` / `prop["checkbox"]`. -/
def NProp.getCheckbox : NProp → Option Bool
  | .checkbox b => some b
  | _ => none

/-- A raw page returned by the provider. -/
structure NPage where
  id : String
  properties : List (String × NProp)
  last_edited_time : Option String := none
deriving Repr, DecidableEq

/-- Dictionary lookup `props[k]` / `k in props` on a property map. -/
def lookupProp (props : List (String × NProp)) (k : String) : Option NProp :=
  (props.find? (fun kv => kv.1 == k)).map (fun kv => kv.2)

/-- `main.py` lines 148-157: the `past_due` block of `notion_to_task`.
A formula property yields its boolean (possibly null); otherwise a checkbox
key yields its value; anything else leaves `None`. -/
def readPastDue (props : List (String × NProp)) : Option Bool :=
  match lookupProp props "Past due" with
  | none => none
  | some p =>
    if p.typeTag == "formula" then
      match p with
      | .formula b => b
      | _ => none
    else
      match p.getCheckbox with
      | some b => some b
      | none => none

/-- `main.py` lines 158-164: the `task_id` block — number, else unique_id,
else the default 0. -/
def readTaskId (props : List (String × NProp)) : Int :=
  match lookupProp props "Task id" with
  | none => 0
  | some p =>
    match p.getNumber with
    | some n => n
    | none =>
      match p.getUniqueId with
      | some n => n
      | none => 0

/-- `main.py` lines 166-172: the `status` block — select tag, else status tag. -/
def readStatus (props : List (String × NProp)) : Option String :=
  match lookupProp props "Status" with
  | none => none
  | some p =>
    match p.getSelect with
    | some s => some s
    | none =>
      match p.getStatus with
      | some s => some s
      | none => none

/-- `main.py` lines 174-180: the `task_type` block — select tag, else first
element of a non-empty multi_select. -/
def readTaskType (props : List (String × NProp)) : Option String :=
  match lookupProp props "Task type" with
  | none => none
  | some p =>
    match p.getSelect with
    | some s => some s
    | none =>
      match p.getMultiSelect with
      | some (o :: _) => some o
      | _ => none

/-- `main.py` lines 182-189: the `attach_file` block.  The direct access
`props["Attach file"]["files"]` raises when the property is not a files
variant. -/
def readAttachFile (props : List (String × NProp)) : Except String (Option String) :=
  match lookupProp props "Attach file" with
  | none => .ok none
  | some (.files []) => .ok none
  | some (.files (f :: _)) =>
    match f with
    | .file url => .ok (some url)
    | .external url => .ok (some url)
  | some _ => .error "KeyError: files"

/-- `main.py` line 193: `props["Task name"]["title"][0]["plain_text"]` with an
empty-list default.  Both dictionary accesses raise when the key is absent. -/
def readTaskName (props : List (String × NProp)) : Except String String :=
  match lookupProp props "Task name" with
  | none => .error "KeyError: Task name"
  | some (.title []) => .ok ""
  | some (.title (t :: _)) => .ok t
  | some _ => .error "KeyError: title"

/-- `main.py` line 195: `props["Assignee"]["people"][0]["name"]` guarded by
presence and truthiness of the people list. -/
def readAssignee (props : List (String × NProp)) : Except String (Option String) :=
  match lookupProp props "Assignee" with
  | none => .ok none
  | some (.people []) => .ok none
  | some (.people (per :: _)) =>
    match per.name with
    | some n => .ok (some n)
    | none => .error "KeyError: name"
  | some _ => .error "KeyError: people"

/-- `main.py` line 196: `props["Due date"]["date"]["start"]` guarded by
presence and a non-null date object. -/
def readDueDate (props : List (String × NProp)) : Except String (Option String) :=
  match lookupProp props "Due date" with
  | none => .ok none
  | some (.date s) => .ok s
  | some _ => .error "KeyError: date"

/-- `main.py` lines 197 and 203: `props[key]["select"]["name"]` guarded by
presence and a non-null select (used for "Priority" and "Effort level"). -/
def readSelectName (props : List (String × NProp)) (key : String) :
    Except String (Option String) :=
  match lookupProp props key with
  | none => .ok none
  | some (.select s) => .ok s
  | some _ => .error "KeyError: select"

/-- `main.py` lines 199 and 204: `props[key]["rich_text"][0]["plain_text"]`
guarded by presence and a non-empty list (used for "Description" and
"Summary"). -/
def readRichText (props : List (String × NProp)) (key : String) :
    Except String (Option String) :=
  match lookupProp props key with
  | none => .ok none
  | some (.rich_text []) => .ok none
  | some (.rich_text (t :: _)) => .ok (some t)
  | some _ => .error "KeyError: rich_text"

/-- `main.py` lines 143-205: the Schema Normalizer.  Field accesses that can
raise `KeyError` are sequenced in the order Python evaluates them (the
`attach_file` block runs before the returned dict literal is built). -/
def notion_to_task (page : NPage) : Except String Task := do
  let props := page.properties
  let past_due := readPastDue props
  let task_id := readTaskId props
  let status := readStatus props
  let task_type := readTaskType props
  let attach_file ← readAttachFile props
  let task_name ← readTaskName props
  let assignee ← readAssignee props
  let due_date ← readDueDate props
  let priority ← readSelectName props "Priority"
  let description ← readRichText props "Description"
  let effort_level ← readSelectName props "Effort level"
  let summary ← readRichText props "Summary"
  .ok { task_id := task_id, task_name := task_name, status := status,
        assignee := assignee, due_date := due_date, priority := priority,
        task_type := task_type, description := description,
        attach_file := attach_file, past_due := past_due,
        updated_at := page.last_edited_time,
        effort_level := effort_level, summary := summary }

/-! ## Property Builders (`add_task` and `update_task`) -/

/-- Python truthiness of a string: `""` is falsy. -/
def strTruthy (s : String) : Bool := s != ""

/-- Python truthiness of an optional string: `None` and `""` are falsy. -/
def optTruthy : Option String → Bool
  | some s => strTruthy s
  | none => false

/-- `if task.f: props[key] = mk(task.f)` — emit an entry only for a truthy
optional string. -/
def optStrEntry (key : String) (v : Option String) (mk : String → NProp) :
    List (String × NProp) :=
  match v with
  | some s => if strTruthy s then [(key, mk s)] else []
  | none => []

/-- The hardcoded person object the builders emit for any assignee
(`main.py` lines 273 and 345): an id only, no name. -/
def assigneePerson : NPerson :=
  { id := some "6aaf53e2-c3b4-4fc6-93b3-c5d41e3f65a0", name := none }

/-- `if task.assignee: props["Assignee"] = {"people": [{"id": ...}]}`. -/
def assigneeEntry (v : Option String) : List (String × NProp) :=
  match v with
  | some s => if strTruthy s then [("Assignee", .people [assigneePerson])] else []
  | none => []

/-- `if task.past_due is not None: props["Past due"] = {"checkbox": ...}` —
emitted even for `False`. -/
def pastDueEntry (v : Option Bool) : List (String × NProp) :=
  match v with
  | some b => [("Past due", .checkbox b)]
  | none => []

/-- `main.py` lines 260-297: the `properties` dict built in `add_task`.
"Task name" is always emitted (even when empty); `task.task_id` is a plain
int, so the `is not None` guard always passes and "Task id" is always
emitted; every other field is emitted only when truthy / non-null. -/
def buildCreateProps (task : Task) : List (String × NProp) :=
  [("Task name", .title [task.task_name]),
   ("Task id", .number (some task.task_id))]
  ++ optStrEntry "Status" task.status (fun s => .status (some s))
  ++ assigneeEntry task.assignee
  ++ optStrEntry "Due date" task.due_date (fun s => .date (some s))
  ++ optStrEntry "Priority" task.priority (fun s => .select (some s))
  ++ optStrEntry "Task type" task.task_type (fun s => .multi_select [s])
  ++ optStrEntry "Description" task.description (fun s => .rich_text [s])
  ++ optStrEntry "Attach file" task.attach_file (fun s => .files [.external s])
  ++ pastDueEntry task.past_due
  ++ optStrEntry "Effort level" task.effort_level (fun s => .select (some s))
  ++ optStrEntry "Summary" task.summary (fun s => .rich_text [s])

/-- `main.py` lines 339-361: the `update_props` dict built in `update_task`.
Unlike creation, "Task name" is emitted only when truthy and "Task id" is
never emitted. -/
def buildUpdateProps (task : Task) : List (String × NProp) :=
  (if strTruthy task.task_name then [("Task name", NProp.title [task.task_name])] else [])
  ++ optStrEntry "Status" task.status (fun s => .status (some s))
  ++ assigneeEntry task.assignee
  ++ optStrEntry "Due date" task.due_date (fun s => .date (some s))
  ++ optStrEntry "Priority" task.priority (fun s => .select (some s))
  ++ optStrEntry "Task type" task.task_type (fun s => .multi_select [s])
  ++ optStrEntry "Description" task.description (fun s => .rich_text [s])
  ++ optStrEntry "Attach file" task.attach_file (fun s => .files [.external s])
  ++ pastDueEntry task.past_due
  ++ optStrEntry "Effort level" task.effort_level (fun s => .select (some s))
  ++ optStrEntry "Summary" task.summary (fun s => .rich_text [s])

/-! ## HTTP layer: authentication, provider world and handlers -/

/-- A structured HTTP error (FastAPI `HTTPException`). -/
structure HErr where
  status_code : Nat
  detail : String
deriving Repr, DecidableEq

/-- Authentication context: the configured `PUBLIC_WRITE_KEY` and the
request's `x-api-key` header, each possibly absent. -/
structure Ctx where
  API_KEY : Option String
  x_api_key : Option String
deriving Repr, DecidableEq

/-- Python truthiness of the configured key: `None` and `""` are falsy. -/
def keyFalsy : Option String → Bool
  | none => true
  | some s => s == ""

/-- `main.py` lines 28-30: reject with 401 unless a key is configured and the
request header equals it. -/
def require_key (c : Ctx) : Except HErr Unit :=
  if keyFalsy c.API_KEY || c.x_api_key != c.API_KEY then
    .error ⟨401, "invalid api key"⟩
  else
    .ok ()

/-- The loop prologue shared by the write handlers (`main.py` lines 330-336
and repeats): the task id of a page, from a number or a unique_id wrapper. -/
def pageTaskId (props : List (String × NProp)) : Option Int :=
  match lookupProp props "Task id" with
  | none => none
  | some p =>
    match p.getNumber with
    | some n => some n
    | none => p.getUniqueId

/-- Overwrite key `k` with `v` in a property map, appending when absent. -/
def setProp (props : List (String × NProp)) (k : String) (v : NProp) :
    List (String × NProp) :=
  if (props.find? (fun kv => kv.1 == k)).isSome then
    props.map (fun kv => if kv.1 == k then (k, v) else kv)
  else
    props ++ [(k, v)]

/-- The provider's page update: the supplied properties replace the page's,
other properties are left unchanged. -/
def mergeProps (props newProps : List (String × NProp)) : List (String × NProp) :=
  newProps.foldl (fun acc kv => setProp acc kv.1 kv.2) props

/-- `notion.pages.update(page_id=..., properties=...)` over the world. -/
def pages_update (world : List NPage) (page_id : String)
    (newProps : List (String × NProp)) : List NPage :=
  world.map (fun p =>
    if p.id == page_id then { p with properties := mergeProps p.properties newProps }
    else p)

/-- Normalize every page, stopping at the first page that raises. -/
def traverseTasks : List NPage → Except String (List Task)
  | [] => .ok []
  | p :: ps => do
    let t ← notion_to_task p
    let ts ← traverseTasks ps
    .ok (t :: ts)

/-- `main.py` lines 208-214: query the provider and normalize every page;
any exception is converted into a 500 response. -/
def get_all_tasks (world : List NPage) : Except HErr (List Task) :=
  match traverseTasks world with
  | .ok ts => .ok ts
  | .error e => .error ⟨500, "Failed to fetch tasks from Notion: " ++ e⟩

/-- `main.py` lines 236-240: GET /tasks/active — all tasks whose status is
not the string "Done" (a null status passes the comparison). -/
def get_active_tasks (world : List NPage) : Except HErr (List Task) :=
  match get_all_tasks world with
  | .error e => .error e
  | .ok tasks => .ok (tasks.filter (fun t => t.status != some "Done"))

/-- `main.py` lines 243-249: GET /tasks/{id} — first normalized task with a
matching id, else 404. -/
def get_task (world : List NPage) (task_id : Int) : Except HErr Task :=
  match get_all_tasks world with
  | .error e => .error e
  | .ok tasks =>
    match tasks.find? (fun t => t.task_id == task_id) with
    | some t => .ok t
    | none => .error ⟨404, "Task not found"⟩

/-- `main.py` lines 252-322: POST /tasks.  Guarded by `require_key`; builds
the creation property map, creates the page, and normalizes the provider's
response.  Returns the response paired with the resulting world. -/
def add_task (c : Ctx) (notionConfigured : Bool) (world : List NPage)
    (newPageId : String) (task : Task) : Except HErr Task × List NPage :=
  match require_key c with
  | .error e => (.error e, world)
  | .ok _ =>
    if !notionConfigured then
      (.error ⟨503, "Notion integration not configured. Please set NOTION_TOKEN and NOTION_DATABASE_ID environment variables."⟩, world)
    else
      let newPage : NPage :=
        { id := newPageId, properties := buildCreateProps task, last_edited_time := none }
      let world' := world ++ [newPage]
      match notion_to_task newPage with
      | .ok t => (.ok t, world')
      | .error e => (.error ⟨500, "Failed to create task in Notion: " ++ e⟩, world')

/-- Render an `HErr` the way Python's `str(HTTPException)` does. -/
def HErr.str (e : HErr) : String := toString e.status_code ++ ": " ++ e.detail

/-- `main.py` lines 325-371: PUT /tasks/{id}.  Guarded by `require_key`;
finds the first page with a matching task id, builds the partial-update
property map, rejects an empty one with an internal 400 that the handler's
own `except` re-wraps as a 500, otherwise updates the page and re-reads the
task. -/
def update_task (c : Ctx) (world : List NPage) (task_id : Int) (task : Task) :
    Except HErr Task × List NPage :=
  match require_key c with
  | .error e => (.error e, world)
  | .ok _ =>
    match world.find? (fun page => pageTaskId page.properties == some task_id) with
    | none => (.error ⟨404, "Task not found"⟩, world)
    | some page =>
      let update_props := buildUpdateProps task
      if update_props.isEmpty then
        (.error ⟨500, "Failed to update task in Notion: " ++
          HErr.str ⟨400, "No valid fields provided for update."⟩⟩, world)
      else
        let world' := pages_update world page.id update_props
        match get_task world' task_id with
        | .ok t => (.ok t, world')
        | .error e =>
          (.error ⟨500, "Failed to update task in Notion: " ++ e.str⟩, world')

/-- `main.py` lines 374-396: PATCH /tasks/{id}/status.  The Python handler
declares no `require_key` dependency and reads no header: it goes straight
to the provider query. -/
def mark_task_status (world : List NPage) (task_id : Int) (status : String) :
    Except HErr Task × List NPage :=
  match world.find? (fun page => pageTaskId page.properties == some task_id) with
  | none => (.error ⟨404, "Task not found"⟩, world)
  | some page =>
    let world' := pages_update world page.id [("Status", .status (some status))]
    match get_task world' task_id with
    | .ok t => (.ok t, world')
    | .error e =>
      (.error ⟨500, "Failed to update status in Notion: " ++ e.str⟩, world')

/-- `main.py` lines 399-421: PATCH /tasks/{id}/comment.  Guarded by
`require_key`; posts a comment (not a page property, so the page world is
unchanged) and re-reads the task. -/
def add_comment (c : Ctx) (world : List NPage) (task_id : Int) (comment : String) :
    Except HErr Task × List NPage :=
  match require_key c with
  | .error e => (.error e, world)
  | .ok _ =>
    match world.find? (fun page => pageTaskId page.properties == some task_id) with
    | none => (.error ⟨404, "Task not found"⟩, world)
    | some _ =>
      match get_task world task_id with
      | .ok t => (.ok t, world)
      | .error e =>
        (.error ⟨500, "Failed to add comment in Notion: " ++ e.str⟩, world)

/-- `main.py` line 439: the existing description text, read the way
`add_link` reads it (default `""`; a non-rich_text variant raises). -/
def readLinkDescription (props : List (String × NProp)) : Except String String :=
  match lookupProp props "Description" with
  | none => .ok ""
  | some (.rich_text []) => .ok ""
  | some (.rich_text (t :: _)) => .ok t
  | some _ => .error "KeyError: rich_text"

/-- `main.py` lines 424-450: PATCH /tasks/{id}/link.  Guarded by
`require_key`; appends the link to the description and updates the page. -/
def add_link (c : Ctx) (world : List NPage) (task_id : Int) (link : String) :
    Except HErr Task × List NPage :=
  match require_key c with
  | .error e => (.error e, world)
  | .ok _ =>
    match world.find? (fun page => pageTaskId page.properties == some task_id) with
    | none => (.error ⟨404, "Task not found"⟩, world)
    | some page =>
      match readLinkDescription page.properties with
      | .error e => (.error ⟨500, "Failed to add link in Notion: " ++ e⟩, world)
      | .ok description =>
        let world' := pages_update world page.id
          [("Description", .rich_text [description ++ "\nLink: " ++ link])]
        match get_task world' task_id with
        | .ok t => (.ok t, world')
        | .error e =>
          (.error ⟨500, "Failed to add link in Notion: " ++ e.str⟩, world')

/-! ## Shared lemmas about the embedding -/

theorem lookupProp_append (a b : List (String × NProp)) (k : String) :
    lookupProp (a ++ b) k = (lookupProp a k).or (lookupProp b k) := by
  simp only [lookupProp, List.find?_append]
  cases List.find? (fun kv => kv.1 == k) a <;> simp

theorem lookupProp_nil (k : String) : lookupProp [] k = none := rfl

theorem lookupProp_cons_ne (x : String × NProp) (xs : List (String × NProp))
    (k : String) (h : (x.1 == k) = false) :
    lookupProp (x :: xs) k = lookupProp xs k := by
  simp [lookupProp, List.find?_cons, h]

theorem lookupProp_cons_eq (x : String × NProp) (xs : List (String × NProp))
    (k : String) (h : (x.1 == k) = true) :
    lookupProp (x :: xs) k = some x.2 := by
  simp [lookupProp, List.find?_cons, h]

/-- A builder segment for a different key is invisible to `lookupProp`. -/
theorem lookupProp_optStrEntry_ne (key k : String) (v : Option String)
    (mk : String → NProp) (h : (key == k) = false) :
    lookupProp (optStrEntry key v mk) k = none := by
  cases v with
  | none => rfl
  | some s =>
    simp only [optStrEntry]
    by_cases hs : strTruthy s = true <;> simp [hs, lookupProp, List.find?, h]

theorem lookupProp_assigneeEntry_ne (k : String) (v : Option String)
    (h : ("Assignee" == k) = false) :
    lookupProp (assigneeEntry v) k = none := by
  cases v with
  | none => rfl
  | some s =>
    simp only [assigneeEntry]
    by_cases hs : strTruthy s = true <;> simp [hs, lookupProp, List.find?, h]

theorem lookupProp_pastDueEntry_ne (k : String) (v : Option Bool)
    (h : ("Past due" == k) = false) :
    lookupProp (pastDueEntry v) k = none := by
  cases v with
  | none => rfl
  | some b => simp [pastDueEntry, lookupProp, List.find?, h]

theorem lookupProp_optStrEntry_eq (key : String) (v : Option String)
    (mk : String → NProp) :
    lookupProp (optStrEntry key v mk) key =
      (match v with
       | some s => if strTruthy s then some (mk s) else none
       | none => none) := by
  cases v with
  | none => rfl
  | some s =>
    simp only [optStrEntry]
    by_cases hs : strTruthy s = true <;> simp [hs, lookupProp, List.find?]

theorem lookupProp_assigneeEntry_eq (v : Option String) :
    lookupProp (assigneeEntry v) "Assignee" =
      (match v with
       | some s => if strTruthy s then some (.people [assigneePerson]) else none
       | none => none) := by
  cases v with
  | none => rfl
  | some s =>
    simp only [assigneeEntry]
    by_cases hs : strTruthy s = true <;> simp [hs, lookupProp, List.find?]

theorem lookupProp_pastDueEntry_eq (v : Option Bool) :
    lookupProp (pastDueEntry v) "Past due" =
      (match v with
       | some b => some (NProp.checkbox b)
       | none => none) := by
  cases v with
  | none => rfl
  | some b => simp [pastDueEntry, lookupProp, List.find?]

theorem optStrEntry_empty (key : String) (v : Option String) (mk : String → NProp)
    (h : optTruthy v = false) : optStrEntry key v mk = [] := by
  cases v with
  | none => rfl
  | some s => simp_all [optStrEntry, optTruthy]

theorem assigneeEntry_empty (v : Option String) (h : optTruthy v = false) :
    assigneeEntry v = [] := by
  cases v with
  | none => rfl
  | some s => simp_all [assigneeEntry, optTruthy]

/-! Per-key contents of the creation property map. -/

theorem lookupCreate_taskName (t : Task) :
    lookupProp (buildCreateProps t) "Task name" = some (.title [t.task_name]) := rfl

theorem lookupCreate_taskId (t : Task) :
    lookupProp (buildCreateProps t) "Task id" = some (.number (some t.task_id)) := rfl

theorem lookupCreate_status (t : Task) :
    lookupProp (buildCreateProps t) "Status" =
      (match t.status with
       | some s => if strTruthy s then some (.status (some s)) else none
       | none => none) := by
  simp [buildCreateProps, lookupProp_append, lookupProp_cons_ne, lookupProp_cons_eq,
    lookupProp_optStrEntry_ne, lookupProp_assigneeEntry_ne, lookupProp_pastDueEntry_ne,
    lookupProp_optStrEntry_eq, lookupProp_assigneeEntry_eq, lookupProp_pastDueEntry_eq]

theorem lookupCreate_assignee (t : Task) :
    lookupProp (buildCreateProps t) "Assignee" =
      (match t.assignee with
       | some s => if strTruthy s then some (.people [assigneePerson]) else none
       | none => none) := by
  simp [buildCreateProps, lookupProp_append, lookupProp_cons_ne, lookupProp_cons_eq,
    lookupProp_optStrEntry_ne, lookupProp_assigneeEntry_ne, lookupProp_pastDueEntry_ne,
    lookupProp_optStrEntry_eq, lookupProp_assigneeEntry_eq, lookupProp_pastDueEntry_eq]

theorem lookupCreate_dueDate (t : Task) :
    lookupProp (buildCreateProps t) "Due date" =
      (match t.due_date with
       | some s => if strTruthy s then some (.date (some s)) else none
       | none => none) := by
  simp [buildCreateProps, lookupProp_append, lookupProp_cons_ne, lookupProp_cons_eq,
    lookupProp_optStrEntry_ne, lookupProp_assigneeEntry_ne, lookupProp_pastDueEntry_ne,
    lookupProp_optStrEntry_eq, lookupProp_assigneeEntry_eq, lookupProp_pastDueEntry_eq]

theorem lookupCreate_priority (t : Task) :
    lookupProp (buildCreateProps t) "Priority" =
      (match t.priority with
       | some s => if strTruthy s then some (.select (some s)) else none
       | none => none) := by
  simp [buildCreateProps, lookupProp_append, lookupProp_cons_ne, lookupProp_cons_eq,
    lookupProp_optStrEntry_ne, lookupProp_assigneeEntry_ne, lookupProp_pastDueEntry_ne,
    lookupProp_optStrEntry_eq, lookupProp_assigneeEntry_eq, lookupProp_pastDueEntry_eq]

theorem lookupCreate_taskType (t : Task) :
    lookupProp (buildCreateProps t) "Task type" =
      (match t.task_type with
       | some s => if strTruthy s then some (.multi_select [s]) else none
       | none => none) := by
  simp [buildCreateProps, lookupProp_append, lookupProp_cons_ne, lookupProp_cons_eq,
    lookupProp_optStrEntry_ne, lookupProp_assigneeEntry_ne, lookupProp_pastDueEntry_ne,
    lookupProp_optStrEntry_eq, lookupProp_assigneeEntry_eq, lookupProp_pastDueEntry_eq]

theorem lookupCreate_description (t : Task) :
    lookupProp (buildCreateProps t) "Description" =
      (match t.description with
       | some s => if strTruthy s then some (.rich_text [s]) else none
       | none => none) := by
  simp [buildCreateProps, lookupProp_append, lookupProp_cons_ne, lookupProp_cons_eq,
    lookupProp_optStrEntry_ne, lookupProp_assigneeEntry_ne, lookupProp_pastDueEntry_ne,
    lookupProp_optStrEntry_eq, lookupProp_assigneeEntry_eq, lookupProp_pastDueEntry_eq]

theorem lookupCreate_attachFile (t : Task) :
    lookupProp (buildCreateProps t) "Attach file" =
      (match t.attach_file with
       | some s => if strTruthy s then some (.files [.external s]) else none
       | none => none) := by
  simp [buildCreateProps, lookupProp_append, lookupProp_cons_ne, lookupProp_cons_eq,
    lookupProp_optStrEntry_ne, lookupProp_assigneeEntry_ne, lookupProp_pastDueEntry_ne,
    lookupProp_optStrEntry_eq, lookupProp_assigneeEntry_eq, lookupProp_pastDueEntry_eq]

theorem lookupCreate_pastDue (t : Task) :
    lookupProp (buildCreateProps t) "Past due" =
      (match t.past_due with
       | some b => some (NProp.checkbox b)
       | none => none) := by
  simp [buildCreateProps, lookupProp_append, lookupProp_cons_ne, lookupProp_cons_eq,
    lookupProp_optStrEntry_ne, lookupProp_assigneeEntry_ne, lookupProp_pastDueEntry_ne,
    lookupProp_optStrEntry_eq, lookupProp_assigneeEntry_eq, lookupProp_pastDueEntry_eq]

theorem lookupCreate_effortLevel (t : Task) :
    lookupProp (buildCreateProps t) "Effort level" =
      (match t.effort_level with
       | some s => if strTruthy s then some (.select (some s)) else none
       | none => none) := by
  simp [buildCreateProps, lookupProp_append, lookupProp_cons_ne, lookupProp_cons_eq,
    lookupProp_optStrEntry_ne, lookupProp_assigneeEntry_ne, lookupProp_pastDueEntry_ne,
    lookupProp_optStrEntry_eq, lookupProp_assigneeEntry_eq, lookupProp_pastDueEntry_eq]

theorem lookupCreate_summary (t : Task) :
    lookupProp (buildCreateProps t) "Summary" =
      (match t.summary with
       | some s => if strTruthy s then some (.rich_text [s]) else none
       | none => none) := by
  simp [buildCreateProps, lookupProp_append, lookupProp_cons_ne, lookupProp_cons_eq,
    lookupProp_optStrEntry_ne, lookupProp_assigneeEntry_ne, lookupProp_pastDueEntry_ne,
    lookupProp_optStrEntry_eq, lookupProp_assigneeEntry_eq, lookupProp_pastDueEntry_eq]

theorem lookupUpdate_head_ne (c : Bool) (x : String × NProp) (k : String)
    (h : (x.1 == k) = false) :
    lookupProp (if c = true then [x] else []) k = none := by
  cases c <;> simp [lookupProp, List.find?, h]

theorem lookupUpdate_taskName (t : Task) :
    lookupProp (buildUpdateProps t) "Task name" =
      (if strTruthy t.task_name then some (NProp.title [t.task_name]) else none) := by
  by_cases hn : strTruthy t.task_name = true <;>
    simp [buildUpdateProps, hn, lookupProp_append, lookupProp_cons_ne, lookupProp_cons_eq,
      lookupProp_optStrEntry_ne, lookupProp_assigneeEntry_ne, lookupProp_pastDueEntry_ne,
      lookupProp_optStrEntry_eq, lookupProp_assigneeEntry_eq, lookupProp_pastDueEntry_eq]

theorem lookupUpdate_taskId (t : Task) :
    lookupProp (buildUpdateProps t) "Task id" = none := by
  simp [buildUpdateProps, lookupUpdate_head_ne, lookupProp_append, lookupProp_cons_ne,
    lookupProp_cons_eq, lookupProp_optStrEntry_ne, lookupProp_assigneeEntry_ne,
    lookupProp_pastDueEntry_ne, lookupProp_optStrEntry_eq, lookupProp_assigneeEntry_eq,
    lookupProp_pastDueEntry_eq]

theorem lookupUpdate_status (t : Task) :
    lookupProp (buildUpdateProps t) "Status" =
      (match t.status with
       | some s => if strTruthy s then some (.status (some s)) else none
       | none => none) := by
  simp [buildUpdateProps, lookupUpdate_head_ne, lookupProp_append, lookupProp_cons_ne,
    lookupProp_cons_eq, lookupProp_optStrEntry_ne, lookupProp_assigneeEntry_ne,
    lookupProp_pastDueEntry_ne, lookupProp_optStrEntry_eq, lookupProp_assigneeEntry_eq,
    lookupProp_pastDueEntry_eq]

theorem lookupUpdate_assignee (t : Task) :
    lookupProp (buildUpdateProps t) "Assignee" =
      (match t.assignee with
       | some s => if strTruthy s then some (.people [assigneePerson]) else none
       | none => none) := by
  simp [buildUpdateProps, lookupUpdate_head_ne, lookupProp_append, lookupProp_cons_ne,
    lookupProp_cons_eq, lookupProp_optStrEntry_ne, lookupProp_assigneeEntry_ne,
    lookupProp_pastDueEntry_ne, lookupProp_optStrEntry_eq, lookupProp_assigneeEntry_eq,
    lookupProp_pastDueEntry_eq]

theorem lookupUpdate_dueDate (t : Task) :
    lookupProp (buildUpdateProps t) "Due date" =
      (match t.due_date with
       | some s => if strTruthy s then some (.date (some s)) else none
       | none => none) := by
  simp [buildUpdateProps, lookupUpdate_head_ne, lookupProp_append, lookupProp_cons_ne,
    lookupProp_cons_eq, lookupProp_optStrEntry_ne, lookupProp_assigneeEntry_ne,
    lookupProp_pastDueEntry_ne, lookupProp_optStrEntry_eq, lookupProp_assigneeEntry_eq,
    lookupProp_pastDueEntry_eq]

theorem lookupUpdate_priority (t : Task) :
    lookupProp (buildUpdateProps t) "Priority" =
      (match t.priority with
       | some s => if strTruthy s then some (.select (some s)) else none
       | none => none) := by
  simp [buildUpdateProps, lookupUpdate_head_ne, lookupProp_append, lookupProp_cons_ne,
    lookupProp_cons_eq, lookupProp_optStrEntry_ne, lookupProp_assigneeEntry_ne,
    lookupProp_pastDueEntry_ne, lookupProp_optStrEntry_eq, lookupProp_assigneeEntry_eq,
    lookupProp_pastDueEntry_eq]

theorem lookupUpdate_taskType (t : Task) :
    lookupProp (buildUpdateProps t) "Task type" =
      (match t.task_type with
       | some s => if strTruthy s then some (.multi_select [s]) else none
       | none => none) := by
  simp [buildUpdateProps, lookupUpdate_head_ne, lookupProp_append, lookupProp_cons_ne,
    lookupProp_cons_eq, lookupProp_optStrEntry_ne, lookupProp_assigneeEntry_ne,
    lookupProp_pastDueEntry_ne, lookupProp_optStrEntry_eq, lookupProp_assigneeEntry_eq,
    lookupProp_pastDueEntry_eq]

theorem lookupUpdate_description (t : Task) :
    lookupProp (buildUpdateProps t) "Description" =
      (match t.description with
       | some s => if strTruthy s then some (.rich_text [s]) else none
       | none => none) := by
  simp [buildUpdateProps, lookupUpdate_head_ne, lookupProp_append, lookupProp_cons_ne,
    lookupProp_cons_eq, lookupProp_optStrEntry_ne, lookupProp_assigneeEntry_ne,
    lookupProp_pastDueEntry_ne, lookupProp_optStrEntry_eq, lookupProp_assigneeEntry_eq,
    lookupProp_pastDueEntry_eq]

theorem lookupUpdate_attachFile (t : Task) :
    lookupProp (buildUpdateProps t) "Attach file" =
      (match t.attach_file with
       | some s => if strTruthy s then some (.files [.external s]) else none
       | none => none) := by
  simp [buildUpdateProps, lookupUpdate_head_ne, lookupProp_append, lookupProp_cons_ne,
    lookupProp_cons_eq, lookupProp_optStrEntry_ne, lookupProp_assigneeEntry_ne,
    lookupProp_pastDueEntry_ne, lookupProp_optStrEntry_eq, lookupProp_assigneeEntry_eq,
    lookupProp_pastDueEntry_eq]

theorem lookupUpdate_pastDue (t : Task) :
    lookupProp (buildUpdateProps t) "Past due" =
      (match t.past_due with
       | some b => some (NProp.checkbox b)
       | none => none) := by
  simp [buildUpdateProps, lookupUpdate_head_ne, lookupProp_append, lookupProp_cons_ne,
    lookupProp_cons_eq, lookupProp_optStrEntry_ne, lookupProp_assigneeEntry_ne,
    lookupProp_pastDueEntry_ne, lookupProp_optStrEntry_eq, lookupProp_assigneeEntry_eq,
    lookupProp_pastDueEntry_eq]

theorem lookupUpdate_effortLevel (t : Task) :
    lookupProp (buildUpdateProps t) "Effort level" =
      (match t.effort_level with
       | some s => if strTruthy s then some (.select (some s)) else none
       | none => none) := by
  simp [buildUpdateProps, lookupUpdate_head_ne, lookupProp_append, lookupProp_cons_ne,
    lookupProp_cons_eq, lookupProp_optStrEntry_ne, lookupProp_assigneeEntry_ne,
    lookupProp_pastDueEntry_ne, lookupProp_optStrEntry_eq, lookupProp_assigneeEntry_eq,
    lookupProp_pastDueEntry_eq]

theorem lookupUpdate_summary (t : Task) :
    lookupProp (buildUpdateProps t) "Summary" =
      (match t.summary with
       | some s => if strTruthy s then some (.rich_text [s]) else none
       | none => none) := by
  simp [buildUpdateProps, lookupUpdate_head_ne, lookupProp_append, lookupProp_cons_ne,
    lookupProp_cons_eq, lookupProp_optStrEntry_ne, lookupProp_assigneeEntry_ne,
    lookupProp_pastDueEntry_ne, lookupProp_optStrEntry_eq, lookupProp_assigneeEntry_eq,
    lookupProp_pastDueEntry_eq]

/-! Field reads over the creation property map. -/

theorem readTaskName_create (t : Task) :
    readTaskName (buildCreateProps t) = .ok t.task_name := rfl

theorem readTaskId_create (t : Task) :
    readTaskId (buildCreateProps t) = t.task_id := rfl

theorem readStatus_create (t : Task) :
    readStatus (buildCreateProps t) = (if optTruthy t.status then t.status else none) := by
  simp only [readStatus, lookupCreate_status]
  cases t.status with
  | none => rfl
  | some s =>
    by_cases hs : strTruthy s = true <;>
      simp [hs, optTruthy, NProp.getSelect, NProp.getStatus]

theorem readTaskType_create (t : Task) :
    readTaskType (buildCreateProps t) = (if optTruthy t.task_type then t.task_type else none) := by
  simp only [readTaskType, lookupCreate_taskType]
  cases t.task_type with
  | none => rfl
  | some s =>
    by_cases hs : strTruthy s = true <;>
      simp [hs, optTruthy, NProp.getSelect, NProp.getMultiSelect]

theorem readPastDue_create (t : Task) :
    readPastDue (buildCreateProps t) = t.past_due := by
  simp only [readPastDue, lookupCreate_pastDue]
  cases t.past_due with
  | none => rfl
  | some b => simp [NProp.typeTag, NProp.getCheckbox]

theorem readAttachFile_create (t : Task) :
    readAttachFile (buildCreateProps t) =
      .ok (if optTruthy t.attach_file then t.attach_file else none) := by
  simp only [readAttachFile, lookupCreate_attachFile]
  cases t.attach_file with
  | none => rfl
  | some s => by_cases hs : strTruthy s = true <;> simp [hs, optTruthy]

theorem readAssignee_create (t : Task) (h : t.assignee = none) :
    readAssignee (buildCreateProps t) = .ok none := by
  simp only [readAssignee, lookupCreate_assignee, h]

theorem readDueDate_create (t : Task) :
    readDueDate (buildCreateProps t) =
      .ok (if optTruthy t.due_date then t.due_date else none) := by
  simp only [readDueDate, lookupCreate_dueDate]
  cases t.due_date with
  | none => rfl
  | some s => by_cases hs : strTruthy s = true <;> simp [hs, optTruthy]

theorem readPriority_create (t : Task) :
    readSelectName (buildCreateProps t) "Priority" =
      .ok (if optTruthy t.priority then t.priority else none) := by
  simp only [readSelectName, lookupCreate_priority]
  cases t.priority with
  | none => rfl
  | some s => by_cases hs : strTruthy s = true <;> simp [hs, optTruthy]

theorem readEffortLevel_create (t : Task) :
    readSelectName (buildCreateProps t) "Effort level" =
      .ok (if optTruthy t.effort_level then t.effort_level else none) := by
  simp only [readSelectName, lookupCreate_effortLevel]
  cases t.effort_level with
  | none => rfl
  | some s => by_cases hs : strTruthy s = true <;> simp [hs, optTruthy]

theorem readDescription_create (t : Task) :
    readRichText (buildCreateProps t) "Description" =
      .ok (if optTruthy t.description then t.description else none) := by
  simp only [readRichText, lookupCreate_description]
  cases t.description with
  | none => rfl
  | some s => by_cases hs : strTruthy s = true <;> simp [hs, optTruthy]

theorem readSummary_create (t : Task) :
    readRichText (buildCreateProps t) "Summary" =
      .ok (if optTruthy t.summary then t.summary else none) := by
  simp only [readRichText, lookupCreate_summary]
  cases t.summary with
  | none => rfl
  | some s => by_cases hs : strTruthy s = true <;> simp [hs, optTruthy]

/-- Introduction form of the Normalizer: when every fallible field read
succeeds, `notion_to_task` succeeds with exactly those fields. -/
theorem notion_to_task_eq (page : NPage) (af : Option String) (tn : String)
    (asg dd pr de el su : Option String)
    (haf : readAttachFile page.properties = .ok af)
    (htn : readTaskName page.properties = .ok tn)
    (hasg : readAssignee page.properties = .ok asg)
    (hdd : readDueDate page.properties = .ok dd)
    (hpr : readSelectName page.properties "Priority" = .ok pr)
    (hde : readRichText page.properties "Description" = .ok de)
    (hel : readSelectName page.properties "Effort level" = .ok el)
    (hsu : readRichText page.properties "Summary" = .ok su) :
    notion_to_task page = .ok
      { task_id := readTaskId page.properties, task_name := tn,
        status := readStatus page.properties, assignee := asg, due_date := dd,
        priority := pr, task_type := readTaskType page.properties,
        description := de, attach_file := af,
        past_due := readPastDue page.properties,
        updated_at := page.last_edited_time, effort_level := el, summary := su } := by
  simp [notion_to_task, haf, htn, hasg, hdd, hpr, hde, hel, hsu, bind, Except.bind]

/-- Elimination form of the Normalizer: a successful run determines every
field of the produced task from the corresponding field read. -/
theorem notion_to_task_ok (page : NPage) (t : Task)
    (h : notion_to_task page = .ok t) :
    readAttachFile page.properties = .ok t.attach_file ∧
    readTaskName page.properties = .ok t.task_name ∧
    readAssignee page.properties = .ok t.assignee ∧
    readDueDate page.properties = .ok t.due_date ∧
    readSelectName page.properties "Priority" = .ok t.priority ∧
    readRichText page.properties "Description" = .ok t.description ∧
    readSelectName page.properties "Effort level" = .ok t.effort_level ∧
    readRichText page.properties "Summary" = .ok t.summary ∧
    t.task_id = readTaskId page.properties ∧
    t.status = readStatus page.properties ∧
    t.task_type = readTaskType page.properties ∧
    t.past_due = readPastDue page.properties ∧
    t.updated_at = page.last_edited_time := by
  cases haf : readAttachFile page.properties with
  | error e => simp [notion_to_task, haf, bind, Except.bind] at h
  | ok af =>
  cases htn : readTaskName page.properties with
  | error e => simp [notion_to_task, haf, htn, bind, Except.bind] at h
  | ok tn =>
  cases hasg : readAssignee page.properties with
  | error e => simp [notion_to_task, haf, htn, hasg, bind, Except.bind] at h
  | ok asg =>
  cases hdd : readDueDate page.properties with
  | error e => simp [notion_to_task, haf, htn, hasg, hdd, bind, Except.bind] at h
  | ok dd =>
  cases hpr : readSelectName page.properties "Priority" with
  | error e => simp [notion_to_task, haf, htn, hasg, hdd, hpr, bind, Except.bind] at h
  | ok pr =>
  cases hde : readRichText page.properties "Description" with
  | error e => simp [notion_to_task, haf, htn, hasg, hdd, hpr, hde, bind, Except.bind] at h
  | ok de =>
  cases hel : readSelectName page.properties "Effort level" with
  | error e => simp [notion_to_task, haf, htn, hasg, hdd, hpr, hde, hel, bind, Except.bind] at h
  | ok el =>
  cases hsu : readRichText page.properties "Summary" with
  | error e => simp [notion_to_task, haf, htn, hasg, hdd, hpr, hde, hel, hsu, bind, Except.bind] at h
  | ok su =>
    have := notion_to_task_eq page af tn asg dd pr de el su haf htn hasg hdd hpr hde hel hsu
    rw [h] at this
    cases this
    simp [haf, htn, hasg, hdd, hpr, hde, hel, hsu]

/-! ## Well-typed records: amenable shapes for each schema field -/

/-- The "Task name" slot, when present, is a title property. -/
def wfTitle : Option NProp → Bool
  | none => true
  | some (.title _) => true
  | some _ => false

/-- The "Assignee" slot, when present, is a people property whose first
person (if any) carries a name. -/
def wfPersonList : List NPerson → Bool
  | [] => true
  | per :: _ => per.name.isSome

def wfPeople : Option NProp → Bool
  | none => true
  | some (.people ps) => wfPersonList ps
  | some _ => false

/-- The "Due date" slot, when present, is a date property. -/
def wfDate : Option NProp → Bool
  | none => true
  | some (.date _) => true
  | some _ => false

/-- The "Attach file" slot, when present, is a files property. -/
def wfFiles : Option NProp → Bool
  | none => true
  | some (.files _) => true
  | some _ => false

/-- A select-only slot ("Priority", "Effort level"), when present, is a
select property. -/
def wfSelect : Option NProp → Bool
  | none => true
  | some (.select _) => true
  | some _ => false

/-- A rich-text slot ("Description", "Summary"), when present, is a
rich_text property. -/
def wfRichText : Option NProp → Bool
  | none => true
  | some (.rich_text _) => true
  | some _ => false

/-- A raw record is well-typed when every slot the Normalizer accesses with a
direct (raising) subscript holds a variant that access expects.  Slots the
Normalizer probes only with `.get` ("Past due", "Task id", "Status",
"Task type") can hold any variant. -/
def wellFormedProps (props : List (String × NProp)) : Bool :=
  wfTitle (lookupProp props "Task name") &&
  wfPeople (lookupProp props "Assignee") &&
  wfDate (lookupProp props "Due date") &&
  wfFiles (lookupProp props "Attach file") &&
  wfSelect (lookupProp props "Priority") &&
  wfSelect (lookupProp props "Effort level") &&
  wfRichText (lookupProp props "Description") &&
  wfRichText (lookupProp props "Summary")

theorem readTaskName_title (props : List (String × NProp)) (l : List String)
    (hl : lookupProp props "Task name" = some (.title l)) :
    readTaskName props = .ok (l.headD "") := by
  cases l <;> simp [readTaskName, hl]

theorem readAttachFile_wf (props : List (String × NProp))
    (h : wfFiles (lookupProp props "Attach file") = true) :
    ∃ v, readAttachFile props = .ok v ∧
      (lookupProp props "Attach file" = none → v = none) := by
  cases hl : lookupProp props "Attach file" with
  | none => exact ⟨none, by simp [readAttachFile, hl], fun _ => rfl⟩
  | some p =>
    rw [hl] at h
    cases p <;> simp [wfFiles] at h
    case files fs =>
      cases fs with
      | nil => exact ⟨none, by simp [readAttachFile, hl], by simp [hl]⟩
      | cons f rest =>
        cases f with
        | file url => exact ⟨some url, by simp [readAttachFile, hl], by simp [hl]⟩
        | external url => exact ⟨some url, by simp [readAttachFile, hl], by simp [hl]⟩

theorem readAssignee_wf (props : List (String × NProp))
    (h : wfPeople (lookupProp props "Assignee") = true) :
    ∃ v, readAssignee props = .ok v ∧
      (lookupProp props "Assignee" = none → v = none) := by
  cases hl : lookupProp props "Assignee" with
  | none => exact ⟨none, by simp [readAssignee, hl], fun _ => rfl⟩
  | some p =>
    rw [hl] at h
    cases p <;> simp [wfPeople] at h
    case people ps =>
      cases ps with
      | nil => exact ⟨none, by simp [readAssignee, hl], by simp [hl]⟩
      | cons per rest =>
        simp [wfPersonList] at h
        cases hn : per.name with
        | none => rw [hn] at h; simp at h
        | some n => exact ⟨some n, by simp [readAssignee, hl, hn], by simp [hl]⟩

theorem readDueDate_wf (props : List (String × NProp))
    (h : wfDate (lookupProp props "Due date") = true) :
    ∃ v, readDueDate props = .ok v ∧
      (lookupProp props "Due date" = none → v = none) := by
  cases hl : lookupProp props "Due date" with
  | none => exact ⟨none, by simp [readDueDate, hl], fun _ => rfl⟩
  | some p =>
    rw [hl] at h
    cases p <;> simp [wfDate] at h
    case date s => exact ⟨s, by simp [readDueDate, hl], by simp [hl]⟩

theorem readSelectName_wf (props : List (String × NProp)) (key : String)
    (h : wfSelect (lookupProp props key) = true) :
    ∃ v, readSelectName props key = .ok v ∧
      (lookupProp props key = none → v = none) := by
  cases hl : lookupProp props key with
  | none => exact ⟨none, by simp [readSelectName, hl], fun _ => rfl⟩
  | some p =>
    rw [hl] at h
    cases p <;> simp [wfSelect] at h
    case select s => exact ⟨s, by simp [readSelectName, hl], by simp [hl]⟩

theorem readRichText_wf (props : List (String × NProp)) (key : String)
    (h : wfRichText (lookupProp props key) = true) :
    ∃ v, readRichText props key = .ok v ∧
      (lookupProp props key = none → v = none) := by
  cases hl : lookupProp props key with
  | none => exact ⟨none, by simp [readRichText, hl], fun _ => rfl⟩
  | some p =>
    rw [hl] at h
    cases p <;> simp [wfRichText] at h
    case rich_text l =>
      cases l with
      | nil => exact ⟨none, by simp [readRichText, hl], by simp [hl]⟩
      | cons s rest => exact ⟨some s, by simp [readRichText, hl], by simp [hl]⟩

theorem readTaskId_absent (props : List (String × NProp))
    (h : lookupProp props "Task id" = none) : readTaskId props = 0 := by
  simp [readTaskId, h]

theorem readStatus_absent (props : List (String × NProp))
    (h : lookupProp props "Status" = none) : readStatus props = none := by
  simp [readStatus, h]

theorem readTaskType_absent (props : List (String × NProp))
    (h : lookupProp props "Task type" = none) : readTaskType props = none := by
  simp [readTaskType, h]

theorem readPastDue_absent (props : List (String × NProp))
    (h : lookupProp props "Past due" = none) : readPastDue props = none := by
  simp [readPastDue, h]

/-! ## Claim C5 -/

/-- C5: for every raw record whose "Task type" property is a multi-select with
a non-empty option list, normalization sets task_type to the name of the first
option. -/
theorem C5_multi_select_first (page : NPage) (o : String) (os : List String)
    (t : Task)
    (hl : lookupProp page.properties "Task type" = some (.multi_select (o :: os)))
    (h : notion_to_task page = .ok t) :
    t.task_type = some o := by
  obtain ⟨_, _, _, _, _, _, _, _, _, _, ht, _, _⟩ := notion_to_task_ok page t h
  rw [ht]
  simp [readTaskType, hl, NProp.getSelect, NProp.getMultiSelect]

def page5 : NPage :=
  { id := "p5",
    properties := [("Task name", .title ["x"]),
                   ("Task type", .multi_select ["Bug", "Urgent"])] }

def task5 : Task := { task_id := 0, task_name := "x", task_type := some "Bug" }

/-- C5 witness: the spec scenario multi-select ["Bug","Urgent"] yields "Bug". -/
theorem C5_witness :
    lookupProp page5.properties "Task type" = some (.multi_select ["Bug", "Urgent"]) ∧
    notion_to_task page5 = .ok task5 ∧
    task5.task_type = some "Bug" :=
  ⟨rfl, rfl, C5_multi_select_first page5 "Bug" ["Urgent"] task5 rfl rfl⟩

/-! ## Claim C6 -/

def cexPage6 : NPage := { id := "p6", properties := [("Task name", .title [])] }

def cexTask6 : Task := { task_id := 0, task_name := "" }

/-- C6 counterexample: a record whose title payload is the empty list
normalizes to a task whose task_name is the EMPTY string, refuting
"task_name is always non-empty after normalization". -/
theorem C6_cex :
    notion_to_task cexPage6 = .ok cexTask6 ∧ cexTask6.task_name = "" :=
  ⟨rfl, rfl⟩

/-- C6 amended: on every successful normalization, task_name is a plain
string (never null by type): the first title text when one exists, and the
empty-string default when the title payload is empty. -/
theorem C6_task_name_default (page : NPage) (t : Task)
    (h : notion_to_task page = .ok t) :
    (lookupProp page.properties "Task name" = some (.title []) → t.task_name = "") ∧
    (∀ s ss, lookupProp page.properties "Task name" = some (.title (s :: ss)) →
      t.task_name = s) := by
  obtain ⟨_, htn, _⟩ := notion_to_task_ok page t h
  constructor
  · intro hl
    have he : readTaskName page.properties = .ok "" := by simp [readTaskName, hl]
    rw [htn] at he
    exact Except.ok.inj he
  · intro s ss hl
    have he : readTaskName page.properties = .ok s := by simp [readTaskName, hl]
    rw [htn] at he
    exact Except.ok.inj he

/-- C6 witness: the empty-title record exercises the empty-string default. -/
theorem C6_witness :
    notion_to_task cexPage6 = .ok cexTask6 ∧
    lookupProp cexPage6.properties "Task name" = some (.title []) ∧
    cexTask6.task_name = "" :=
  ⟨rfl, rfl, (C6_task_name_default cexPage6 cexTask6 rfl).1 rfl⟩

/-! ## Claim C7 -/

/-- C7: task_id is 0 when the "Task id" property is absent or has neither a
numeric value nor a unique-identifier wrapper; otherwise it is taken from the
number, or from the unique-identifier wrapper when no number is present. -/
theorem C7_task_id_rules (page : NPage) (t : Task)
    (h : notion_to_task page = .ok t) :
    (lookupProp page.properties "Task id" = none → t.task_id = 0) ∧
    (∀ p, lookupProp page.properties "Task id" = some p →
      (∀ n, p.getNumber = some n → t.task_id = n) ∧
      (p.getNumber = none → ∀ n, p.getUniqueId = some n → t.task_id = n) ∧
      (p.getNumber = none → p.getUniqueId = none → t.task_id = 0)) := by
  obtain ⟨_, _, _, _, _, _, _, _, hid, _, _, _, _⟩ := notion_to_task_ok page t h
  constructor
  · intro hl
    rw [hid]
    simp [readTaskId, hl]
  · intro p hl
    refine ⟨?_, ?_, ?_⟩
    · intro n hn
      rw [hid]
      simp [readTaskId, hl, hn]
    · intro hn n hu
      rw [hid]
      simp [readTaskId, hl, hn, hu]
    · intro hn hu
      rw [hid]
      simp [readTaskId, hl, hn, hu]

def page7 : NPage :=
  { id := "p7",
    properties := [("Task name", .title ["x"]), ("Task id", .unique_id 42)] }

def task7 : Task := { task_id := 42, task_name := "x" }

/-- C7 witness: a unique-identifier wrapper supplies the task id. -/
theorem C7_witness :
    notion_to_task page7 = .ok task7 ∧
    lookupProp page7.properties "Task id" = some (.unique_id 42) ∧
    task7.task_id = 42 :=
  ⟨rfl, rfl,
    ((C7_task_id_rules page7 task7 rfl).2 (.unique_id 42) rfl).2.1 rfl 42 rfl⟩

/-! ## Claim C8 -/

/-- C8: a boolean-valued formula "Past due" property normalizes past_due to
exactly the formula boolean when present and to null when the formula yields
no boolean. -/
theorem C8_past_due_formula (page : NPage) (t : Task)
    (h : notion_to_task page = .ok t) :
    (∀ b, lookupProp page.properties "Past due" = some (.formula (some b)) →
      t.past_due = some b) ∧
    (lookupProp page.properties "Past due" = some (.formula none) →
      t.past_due = none) := by
  obtain ⟨_, _, _, _, _, _, _, _, _, _, _, hpd, _⟩ := notion_to_task_ok page t h
  constructor
  · intro b hl
    rw [hpd]
    simp [readPastDue, hl, NProp.typeTag]
  · intro hl
    rw [hpd]
    simp [readPastDue, hl, NProp.typeTag]

def page8 : NPage :=
  { id := "p8",
    properties := [("Task name", .title ["x"]), ("Past due", .formula (some true))] }

def task8 : Task := { task_id := 0, task_name := "x", past_due := some true }

/-- C8 witness: a formula returning true yields past_due = true. -/
theorem C8_witness :
    notion_to_task page8 = .ok task8 ∧
    lookupProp page8.properties "Past due" = some (.formula (some true)) ∧
    task8.past_due = some true :=
  ⟨rfl, rfl, (C8_past_due_formula page8 task8 rfl).1 true rfl⟩

/-! ## Claim C1 -/

/-- C1 counterexample: a raw record with no "Task name" key makes the
Normalizer raise (KeyError) instead of returning a Task, refuting "no missing
key causes an exception". -/
theorem C1_cex :
    notion_to_task { id := "page-0", properties := [], last_edited_time := none } =
      .error "KeyError: Task name" := rfl

/-- C1 amended: for every well-typed raw record that does contain the required
"Task name" title property, normalization returns a Task without error, for
any subset of optional fields absent, and each absent optional field maps to
null (task_id to its 0 default). -/
theorem C1_missing_fields_default (page : NPage) (l : List String)
    (hwf : wellFormedProps page.properties = true)
    (hname : lookupProp page.properties "Task name" = some (.title l)) :
    ∃ t : Task, notion_to_task page = .ok t ∧
      (lookupProp page.properties "Task id" = none → t.task_id = 0) ∧
      (lookupProp page.properties "Status" = none → t.status = none) ∧
      (lookupProp page.properties "Assignee" = none → t.assignee = none) ∧
      (lookupProp page.properties "Due date" = none → t.due_date = none) ∧
      (lookupProp page.properties "Priority" = none → t.priority = none) ∧
      (lookupProp page.properties "Task type" = none → t.task_type = none) ∧
      (lookupProp page.properties "Description" = none → t.description = none) ∧
      (lookupProp page.properties "Attach file" = none → t.attach_file = none) ∧
      (lookupProp page.properties "Past due" = none → t.past_due = none) ∧
      (lookupProp page.properties "Effort level" = none → t.effort_level = none) ∧
      (lookupProp page.properties "Summary" = none → t.summary = none) := by
  simp only [wellFormedProps, Bool.and_eq_true] at hwf
  obtain ⟨⟨⟨⟨⟨⟨⟨h1, h2⟩, h3⟩, h4⟩, h5⟩, h6⟩, h7⟩, h8⟩ := hwf
  obtain ⟨af, haf, hafn⟩ := readAttachFile_wf page.properties h4
  have htn := readTaskName_title page.properties l hname
  obtain ⟨asg, hasg, hasgn⟩ := readAssignee_wf page.properties h2
  obtain ⟨dd, hdd, hddn⟩ := readDueDate_wf page.properties h3
  obtain ⟨pr, hpr, hprn⟩ := readSelectName_wf page.properties "Priority" h5
  obtain ⟨de, hde, hden⟩ := readRichText_wf page.properties "Description" h7
  obtain ⟨el, hel, heln⟩ := readSelectName_wf page.properties "Effort level" h6
  obtain ⟨su, hsu, hsun⟩ := readRichText_wf page.properties "Summary" h8
  refine ⟨_,
    notion_to_task_eq page af (l.headD "") asg dd pr de el su
      haf htn hasg hdd hpr hde hel hsu,
    fun h => readTaskId_absent _ h,
    fun h => readStatus_absent _ h,
    fun h => hasgn h,
    fun h => hddn h,
    fun h => hprn h,
    fun h => readTaskType_absent _ h,
    fun h => hden h,
    fun h => hafn h,
    fun h => readPastDue_absent _ h,
    fun h => heln h,
    fun h => hsun h⟩

def page1 : NPage :=
  { id := "p1", properties := [("Task name", .title ["Write spec"])] }

/-- C1 witness: a record carrying only the title normalizes with every
optional field null and task_id 0. -/
theorem C1_witness :
    wellFormedProps page1.properties = true ∧
    lookupProp page1.properties "Task name" = some (.title ["Write spec"]) ∧
    (∃ t : Task, notion_to_task page1 = .ok t ∧
      (lookupProp page1.properties "Task id" = none → t.task_id = 0) ∧
      (lookupProp page1.properties "Status" = none → t.status = none) ∧
      (lookupProp page1.properties "Assignee" = none → t.assignee = none) ∧
      (lookupProp page1.properties "Due date" = none → t.due_date = none) ∧
      (lookupProp page1.properties "Priority" = none → t.priority = none) ∧
      (lookupProp page1.properties "Task type" = none → t.task_type = none) ∧
      (lookupProp page1.properties "Description" = none → t.description = none) ∧
      (lookupProp page1.properties "Attach file" = none → t.attach_file = none) ∧
      (lookupProp page1.properties "Past due" = none → t.past_due = none) ∧
      (lookupProp page1.properties "Effort level" = none → t.effort_level = none) ∧
      (lookupProp page1.properties "Summary" = none → t.summary = none)) :=
  ⟨rfl, rfl, C1_missing_fields_default page1 ["Write spec"] rfl rfl⟩

/-! ## Claim C2 -/

def taskWithAssignee : Task :=
  { task_id := 1, task_name := "T", assignee := some "Alice" }

/-- C2 counterexample: for a task with an assignee, reading the built
property map back through the Normalizer raises (the builder emits only a
hardcoded user id, with no name for the Normalizer to read), so the
round trip does not reproduce the assignee — it does not even return. -/
theorem C2_cex :
    notion_to_task
      { id := "new", properties := buildCreateProps taskWithAssignee,
        last_edited_time := none } =
      .error "KeyError: name" := rfl

/-- C2 amended: for every task with no assignee, normalizing the property map
built by add_task reproduces task_name and task_id always, every optional
string field that was set to a truthy value, and past_due exactly; the
assignee is NOT round-tripped (the builder discards it for a fixed user id). -/
theorem C2_roundtrip (task : Task) (pid : String)
    (hasg : task.assignee = none) :
    ∃ t : Task,
      notion_to_task
        { id := pid, properties := buildCreateProps task,
          last_edited_time := none } = .ok t ∧
      t.task_name = task.task_name ∧
      t.task_id = task.task_id ∧
      (optTruthy task.status = true → t.status = task.status) ∧
      (optTruthy task.due_date = true → t.due_date = task.due_date) ∧
      (optTruthy task.priority = true → t.priority = task.priority) ∧
      (optTruthy task.task_type = true → t.task_type = task.task_type) ∧
      (optTruthy task.description = true → t.description = task.description) ∧
      (optTruthy task.attach_file = true → t.attach_file = task.attach_file) ∧
      t.past_due = task.past_due ∧
      (optTruthy task.effort_level = true → t.effort_level = task.effort_level) ∧
      (optTruthy task.summary = true → t.summary = task.summary) := by
  refine ⟨_,
    notion_to_task_eq _
      (if optTruthy task.attach_file then task.attach_file else none)
      task.task_name none
      (if optTruthy task.due_date then task.due_date else none)
      (if optTruthy task.priority then task.priority else none)
      (if optTruthy task.description then task.description else none)
      (if optTruthy task.effort_level then task.effort_level else none)
      (if optTruthy task.summary then task.summary else none)
      (readAttachFile_create task) (readTaskName_create task)
      (readAssignee_create task hasg) (readDueDate_create task)
      (readPriority_create task) (readDescription_create task)
      (readEffortLevel_create task) (readSummary_create task),
    rfl, readTaskId_create task, ?_, ?_, ?_, ?_, ?_, ?_, ?_, ?_, ?_⟩
  · intro h
    simp [readStatus_create, h]
  · intro h
    simp [h]
  · intro h
    simp [h]
  · intro h
    simp [readTaskType_create, h]
  · intro h
    simp [h]
  · intro h
    simp [h]
  · simp [readPastDue_create]
  · intro h
    simp [h]
  · intro h
    simp [h]

def rtTask : Task :=
  { task_id := 3, task_name := "Demo", status := some "In progress",
    due_date := some "2025-01-31", priority := some "High",
    task_type := some "Bug", description := some "desc",
    attach_file := some "https://x/y.png", past_due := some false,
    effort_level := some "Small", summary := some "sum" }

/-- C2 witness: a fully populated assignee-free task round-trips through
build-then-normalize. -/
theorem C2_witness :
    rtTask.assignee = none ∧
    (∃ t : Task,
      notion_to_task
        { id := "new-page", properties := buildCreateProps rtTask,
          last_edited_time := none } = .ok t ∧
      t.task_name = rtTask.task_name ∧
      t.task_id = rtTask.task_id ∧
      (optTruthy rtTask.status = true → t.status = rtTask.status) ∧
      (optTruthy rtTask.due_date = true → t.due_date = rtTask.due_date) ∧
      (optTruthy rtTask.priority = true → t.priority = rtTask.priority) ∧
      (optTruthy rtTask.task_type = true → t.task_type = rtTask.task_type) ∧
      (optTruthy rtTask.description = true → t.description = rtTask.description) ∧
      (optTruthy rtTask.attach_file = true → t.attach_file = rtTask.attach_file) ∧
      t.past_due = rtTask.past_due ∧
      (optTruthy rtTask.effort_level = true → t.effort_level = rtTask.effort_level) ∧
      (optTruthy rtTask.summary = true → t.summary = rtTask.summary)) :=
  ⟨rfl, C2_roundtrip rtTask "new-page" rfl⟩

/-! ## Claim C3 -/

def cexPage3 : NPage :=
  { id := "p0",
    properties := [("Task name", .title ["T"]),
                   ("Task id", .number (some 1)),
                   ("Status", .status (some "Todo"))] }

/-- C3 counterexample: PATCH /tasks/{id}/status carries no credential check
at all — the handler takes no key and, with no credential presented, performs
the provider write and returns 200 instead of rejecting with 401. -/
theorem C3_cex :
    (mark_task_status [cexPage3] 1 "Done").1 =
      .ok { task_id := 1, task_name := "T", status := some "Done" } ∧
    (mark_task_status [cexPage3] 1 "Done").2 ≠ [cexPage3] := by
  refine ⟨rfl, ?_⟩
  decide

/-- C3 amended: the other four write endpoints (POST /tasks, PUT /tasks/{id},
PATCH /tasks/{id}/comment, PATCH /tasks/{id}/link) reject every request on
which require_key fails — missing or wrong x-api-key — with exactly 401,
leaving the provider world untouched; PATCH /tasks/{id}/status performs no
such check. -/
theorem C3_write_auth (c : Ctx) (err : HErr)
    (h : require_key c = .error err) :
    err = ⟨401, "invalid api key"⟩ ∧
    (∀ (cfg : Bool) (world : List NPage) (pid : String) (task : Task),
        add_task c cfg world pid task = (.error err, world)) ∧
    (∀ (world : List NPage) (tid : Int) (task : Task),
        update_task c world tid task = (.error err, world)) ∧
    (∀ (world : List NPage) (tid : Int) (comment : String),
        add_comment c world tid comment = (.error err, world)) ∧
    (∀ (world : List NPage) (tid : Int) (link : String),
        add_link c world tid link = (.error err, world)) := by
  have h401 : err = ⟨401, "invalid api key"⟩ := by
    by_cases hc : (keyFalsy c.API_KEY || c.x_api_key != c.API_KEY) = true
    · simp [require_key, hc] at h
      exact h.symm
    · simp [require_key, hc] at h
  refine ⟨h401, ?_, ?_, ?_, ?_⟩
  · intro cfg world pid task
    simp [add_task, h]
  · intro world tid task
    simp [update_task, h]
  · intro world tid comment
    simp [add_comment, h]
  · intro world tid link
    simp [add_link, h]

def ctxNoHeader : Ctx := { API_KEY := some "secret", x_api_key := none }

def demoTask : Task := { task_id := 9, task_name := "demo" }

/-- C3 witness: with a configured key and a missing header, every guarded
write endpoint answers 401 and leaves the world unchanged. -/
theorem C3_witness :
    require_key ctxNoHeader = .error ⟨401, "invalid api key"⟩ ∧
    add_task ctxNoHeader true [cexPage3] "new" demoTask =
      (.error ⟨401, "invalid api key"⟩, [cexPage3]) ∧
    update_task ctxNoHeader [cexPage3] 1 demoTask =
      (.error ⟨401, "invalid api key"⟩, [cexPage3]) ∧
    add_comment ctxNoHeader [cexPage3] 1 "hi" =
      (.error ⟨401, "invalid api key"⟩, [cexPage3]) ∧
    add_link ctxNoHeader [cexPage3] 1 "https://l" =
      (.error ⟨401, "invalid api key"⟩, [cexPage3]) := by
  have h := C3_write_auth ctxNoHeader ⟨401, "invalid api key"⟩ rfl
  exact ⟨rfl, h.2.1 true [cexPage3] "new" demoTask,
    h.2.2.1 [cexPage3] 1 demoTask,
    h.2.2.2.1 [cexPage3] 1 "hi",
    h.2.2.2.2 [cexPage3] 1 "https://l"⟩

/-! ## Claim C4 -/

def cexTask4 : Task := { task_id := 7, task_name := "" }

/-- C4 counterexample: task_id is a field with a present (non-null) value, 7,
yet the partial-update property map emits no key at all for it (here the map
is empty), refuting the "if and only if" over all Task fields. -/
theorem C4_cex : buildUpdateProps cexTask4 = [] ∧ cexTask4.task_id = 7 :=
  ⟨rfl, rfl⟩

/-- C4 amended: for each of the eleven fields update_task handles (task_name,
status, assignee, due_date, priority, task_type, description, attach_file,
past_due, effort_level, summary), the partial-update map contains the field's
key exactly when the field holds a present (truthy / non-null) value — so no
clear instruction is ever emitted for an absent field; task_id is never
emitted on update. -/
theorem C4_update_emits_iff_present (t : Task) :
    (lookupProp (buildUpdateProps t) "Task name").isSome = strTruthy t.task_name ∧
    (lookupProp (buildUpdateProps t) "Status").isSome = optTruthy t.status ∧
    (lookupProp (buildUpdateProps t) "Assignee").isSome = optTruthy t.assignee ∧
    (lookupProp (buildUpdateProps t) "Due date").isSome = optTruthy t.due_date ∧
    (lookupProp (buildUpdateProps t) "Priority").isSome = optTruthy t.priority ∧
    (lookupProp (buildUpdateProps t) "Task type").isSome = optTruthy t.task_type ∧
    (lookupProp (buildUpdateProps t) "Description").isSome = optTruthy t.description ∧
    (lookupProp (buildUpdateProps t) "Attach file").isSome = optTruthy t.attach_file ∧
    (lookupProp (buildUpdateProps t) "Past due").isSome = t.past_due.isSome ∧
    (lookupProp (buildUpdateProps t) "Effort level").isSome = optTruthy t.effort_level ∧
    (lookupProp (buildUpdateProps t) "Summary").isSome = optTruthy t.summary ∧
    lookupProp (buildUpdateProps t) "Task id" = none := by
  refine ⟨?_, ?_, ?_, ?_, ?_, ?_, ?_, ?_, ?_, ?_, ?_, lookupUpdate_taskId t⟩
  · rw [lookupUpdate_taskName]
    by_cases hn : strTruthy t.task_name = true <;> simp [hn]
  · rw [lookupUpdate_status]
    cases hv : t.status with
    | none => rfl
    | some s => by_cases hs : strTruthy s = true <;> simp [hs, optTruthy]
  · rw [lookupUpdate_assignee]
    cases hv : t.assignee with
    | none => rfl
    | some s => by_cases hs : strTruthy s = true <;> simp [hs, optTruthy]
  · rw [lookupUpdate_dueDate]
    cases hv : t.due_date with
    | none => rfl
    | some s => by_cases hs : strTruthy s = true <;> simp [hs, optTruthy]
  · rw [lookupUpdate_priority]
    cases hv : t.priority with
    | none => rfl
    | some s => by_cases hs : strTruthy s = true <;> simp [hs, optTruthy]
  · rw [lookupUpdate_taskType]
    cases hv : t.task_type with
    | none => rfl
    | some s => by_cases hs : strTruthy s = true <;> simp [hs, optTruthy]
  · rw [lookupUpdate_description]
    cases hv : t.description with
    | none => rfl
    | some s => by_cases hs : strTruthy s = true <;> simp [hs, optTruthy]
  · rw [lookupUpdate_attachFile]
    cases hv : t.attach_file with
    | none => rfl
    | some s => by_cases hs : strTruthy s = true <;> simp [hs, optTruthy]
  · rw [lookupUpdate_pastDue]
    cases hv : t.past_due with
    | none => rfl
    | some b => rfl
  · rw [lookupUpdate_effortLevel]
    cases hv : t.effort_level with
    | none => rfl
    | some s => by_cases hs : strTruthy s = true <;> simp [hs, optTruthy]
  · rw [lookupUpdate_summary]
    cases hv : t.summary with
    | none => rfl
    | some s => by_cases hs : strTruthy s = true <;> simp [hs, optTruthy]

/-! ## Claim C9 -/

/-- C9: whenever the provider query normalizes successfully, GET /tasks/active
returns exactly the normalized tasks whose status differs from "Done", in
order, and every task with a null status is among them. -/
theorem C9_active_filter (world : List NPage) (ts : List Task)
    (h : get_all_tasks world = .ok ts) :
    get_active_tasks world = .ok (ts.filter (fun t => t.status != some "Done")) ∧
    ∀ t ∈ ts, t.status = none →
      t ∈ ts.filter (fun t => t.status != some "Done") := by
  constructor
  · simp [get_active_tasks, h]
  · intro t ht hs
    simp [List.mem_filter, ht, hs]

def pageDone : NPage :=
  { id := "a",
    properties := [("Task name", .title ["A"]), ("Task id", .number (some 1)),
                   ("Status", .status (some "Done"))] }

def pageTodo : NPage :=
  { id := "b",
    properties := [("Task name", .title ["B"]), ("Task id", .number (some 2)),
                   ("Status", .status (some "Todo"))] }

def pageNoStatus : NPage :=
  { id := "c",
    properties := [("Task name", .title ["C"]), ("Task id", .number (some 3))] }

def world9 : List NPage := [pageDone, pageTodo, pageNoStatus]

def tasks9 : List Task :=
  [{ task_id := 1, task_name := "A", status := some "Done" },
   { task_id := 2, task_name := "B", status := some "Todo" },
   { task_id := 3, task_name := "C" }]

/-- C9 witness: a Done task is dropped while the Todo task and the
status-less task are kept, in order. -/
theorem C9_witness :
    get_all_tasks world9 = .ok tasks9 ∧
    get_active_tasks world9 = .ok (tasks9.filter (fun t => t.status != some "Done")) ∧
    ∀ t ∈ tasks9, t.status = none →
      t ∈ tasks9.filter (fun t => t.status != some "Done") :=
  ⟨rfl, (C9_active_filter world9 tasks9 rfl).1, (C9_active_filter world9 tasks9 rfl).2⟩

/-! ## Claim C10 -/

theorem buildUpdateProps_empty (task : Task)
    (hname : strTruthy task.task_name = false)
    (h1 : optTruthy task.status = false) (h2 : optTruthy task.assignee = false)
    (h3 : optTruthy task.due_date = false) (h4 : optTruthy task.priority = false)
    (h5 : optTruthy task.task_type = false) (h6 : optTruthy task.description = false)
    (h7 : optTruthy task.attach_file = false) (h8 : task.past_due = none)
    (h9 : optTruthy task.effort_level = false) (h10 : optTruthy task.summary = false) :
    buildUpdateProps task = [] := by
  simp [buildUpdateProps, hname, h8, pastDueEntry,
    optStrEntry_empty _ _ _ h1, assigneeEntry_empty _ h2,
    optStrEntry_empty _ _ _ h3, optStrEntry_empty _ _ _ h4,
    optStrEntry_empty _ _ _ h5, optStrEntry_empty _ _ _ h6,
    optStrEntry_empty _ _ _ h7, optStrEntry_empty _ _ _ h9,
    optStrEntry_empty _ _ _ h10]

/-- C10: an authorized PUT /tasks/{id} whose page exists but whose body has
no present field (falsy task_name, falsy optional strings, null past_due)
fails with the 500 response wrapping the internal 400 "No valid fields
provided for update.", and the provider world is left untouched (no write). -/
theorem C10_empty_update_500 (c : Ctx) (world : List NPage) (tid : Int)
    (task : Task)
    (hauth : require_key c = .ok ())
    (hfound : (world.find? (fun page => pageTaskId page.properties == some tid)).isSome = true)
    (hname : strTruthy task.task_name = false)
    (h1 : optTruthy task.status = false) (h2 : optTruthy task.assignee = false)
    (h3 : optTruthy task.due_date = false) (h4 : optTruthy task.priority = false)
    (h5 : optTruthy task.task_type = false) (h6 : optTruthy task.description = false)
    (h7 : optTruthy task.attach_file = false) (h8 : task.past_due = none)
    (h9 : optTruthy task.effort_level = false) (h10 : optTruthy task.summary = false) :
    update_task c world tid task =
      (.error { status_code := 500,
                detail := "Failed to update task in Notion: 400: No valid fields provided for update." },
       world) := by
  have hempty := buildUpdateProps_empty task hname h1 h2 h3 h4 h5 h6 h7 h8 h9 h10
  cases hf : world.find? (fun page => pageTaskId page.properties == some tid) with
  | none =>
    rw [hf] at hfound
    simp at hfound
  | some page =>
    simp [update_task, hauth, hf, hempty, HErr.str]
    rfl

def ctxOk : Ctx := { API_KEY := some "k", x_api_key := some "k" }

def emptyTask : Task := { task_id := 5, task_name := "" }

/-- C10 witness: with a valid key, an existing page and an all-empty body,
PUT answers the wrapped 500 and the world is unchanged. -/
theorem C10_witness :
    require_key ctxOk = .ok () ∧
    ([cexPage3].find? (fun page => pageTaskId page.properties == some 1)).isSome = true ∧
    strTruthy emptyTask.task_name = false ∧
    emptyTask.past_due = none ∧
    update_task ctxOk [cexPage3] 1 emptyTask =
      (.error { status_code := 500,
                detail := "Failed to update task in Notion: 400: No valid fields provided for update." },
       [cexPage3]) :=
  ⟨rfl, rfl, rfl, rfl,
    C10_empty_update_500 ctxOk [cexPage3] 1 emptyTask rfl rfl rfl rfl rfl rfl
      rfl rfl rfl rfl rfl rfl rfl⟩

end TodoTracker
